import Mathlib

/-!
Shallow embedding of `tools/stm32-power.py`, a command-line utility that
controls a Kasa smart plug (status / on / off / cycle).  The external kasa
device library is modelled by an environment that fixes, for one invocation,
the state the device reports after a successful refresh and whether each
library primitive succeeds or raises.  Each command handler is embedded as a
function from that environment and the host string to the trace it produces:
the ordered list of library calls (plus the timed wait), the stdout lines,
and an optional raised error message.  `main` wraps a handler exactly as the
Python dispatcher does: it resolves the argparse defaults, runs the handler,
and on a raised error prints one `Error: <message>` line to stderr and exits
with code 1, otherwise exits with code 0.
-/

namespace STM32Power

/-- A call observed at the boundary with the external kasa library, or the
timed wait issued by `asyncio.sleep`. -/
inductive Call where
  | connect (host : String)
  | refresh
  | turn_on
  | turn_off
  | wait (seconds : Nat)
deriving DecidableEq, Repr

/-- Model of the external kasa device collaborator for one invocation:
`deviceAlias` is `dev.alias`, `is_on` is `dev.is_on` as reported after a
successful refresh, `reportedHost` is the address the device itself reports
(never read by the code), and each `*Err` field is `some message` when the
corresponding primitive raises and `none` when it succeeds. -/
structure Env where
  deviceAlias : String
  is_on : Bool
  reportedHost : String
  connectErr : Option String
  refreshErr : Option String
  turnOnErr : Option String
  turnOffErr : Option String
deriving Repr

/-- The externally observable trace of one command handler: ordered library
calls and stdout lines. -/
structure Trace where
  calls : List Call
  stdout : List String
deriving DecidableEq, Repr

/-- `DEFAULT_HOST = "192.168.4.96"` from the source. -/
def DEFAULT_HOST : String := "192.168.4.96"

/-- `CYCLE_DELAY = 3` seconds between off and on, from the source. -/
def CYCLE_DELAY : Nat := 3

/-- `get_device`: `Device.connect(host=host)` followed by `dev.update()`.
Returns the calls issued and the raised error, if any. -/
def get_device (env : Env) (host : String) : Trace × Option String :=
  match env.connectErr with
  | some msg => (⟨[Call.connect host], []⟩, some msg)
  | none =>
    match env.refreshErr with
    | some msg => (⟨[Call.connect host, Call.refresh], []⟩, some msg)
    | none => (⟨[Call.connect host, Call.refresh], []⟩, none)

/-- `cmd_status`: connect and refresh, then print the alias, the host
argument, and the state derived from `is_on`. -/
def cmd_status (env : Env) (host : String) : Trace × Option String :=
  match get_device env host with
  | (t, some msg) => (t, some msg)
  | (t, none) =>
    let state := if env.is_on then "ON" else "OFF"
    ({ calls := t.calls
       stdout := t.stdout ++
         ["Device: " ++ env.deviceAlias, "Host:   " ++ host, "State:  " ++ state] },
     none)

/-- `cmd_on`: connect and refresh; if `is_on`, print `Already ON`, otherwise
issue `turn_on` and print `Turned ON`. -/
def cmd_on (env : Env) (host : String) : Trace × Option String :=
  match get_device env host with
  | (t, some msg) => (t, some msg)
  | (t, none) =>
    if env.is_on then
      ({ t with stdout := t.stdout ++ ["Already ON"] }, none)
    else
      match env.turnOnErr with
      | some msg => ({ t with calls := t.calls ++ [Call.turn_on] }, some msg)
      | none =>
        ({ calls := t.calls ++ [Call.turn_on]
           stdout := t.stdout ++ ["Turned ON"] }, none)

/-- `cmd_off`: connect and refresh; if not `is_on`, print `Already OFF`,
otherwise issue `turn_off` and print `Turned OFF`. -/
def cmd_off (env : Env) (host : String) : Trace × Option String :=
  match get_device env host with
  | (t, some msg) => (t, some msg)
  | (t, none) =>
    if !env.is_on then
      ({ t with stdout := t.stdout ++ ["Already OFF"] }, none)
    else
      match env.turnOffErr with
      | some msg => ({ t with calls := t.calls ++ [Call.turn_off] }, some msg)
      | none =>
        ({ calls := t.calls ++ [Call.turn_off]
           stdout := t.stdout ++ ["Turned OFF"] }, none)

/-- `cmd_cycle`: connect and refresh (result unused), print
`Power cycling...`, issue `turn_off`, print the waiting message, sleep for
`CYCLE_DELAY` seconds, issue `turn_on`, print `ON`. -/
def cmd_cycle (env : Env) (host : String) : Trace × Option String :=
  match get_device env host with
  | (t, some msg) => (t, some msg)
  | (t, none) =>
    let t1 : Trace := { t with stdout := t.stdout ++ ["Power cycling..."] }
    match env.turnOffErr with
    | some msg => ({ t1 with calls := t1.calls ++ [Call.turn_off] }, some msg)
    | none =>
      let t2 : Trace :=
        { calls := t1.calls ++ [Call.turn_off, Call.wait CYCLE_DELAY]
          stdout := t1.stdout ++
            ["OFF - waiting " ++ toString CYCLE_DELAY ++ "s..."] }
      match env.turnOnErr with
      | some msg => ({ t2 with calls := t2.calls ++ [Call.turn_on] }, some msg)
      | none =>
        ({ calls := t2.calls ++ [Call.turn_on]
           stdout := t2.stdout ++ ["ON"] }, none)

/-- The closed command set of the `commands` dispatch dictionary. -/
inductive Command where
  | status
  | on
  | off
  | cycle
deriving DecidableEq, Repr

/-- The `commands` dispatch dictionary of `main`. -/
def commands : Command → Env → String → Trace × Option String
  | Command.status => cmd_status
  | Command.on => cmd_on
  | Command.off => cmd_off
  | Command.cycle => cmd_cycle

/-- Everything observable about one process invocation: library calls,
stdout lines, stderr lines, and the process exit code. -/
structure RunResult where
  calls : List Call
  stdout : List String
  stderr : List String
  exitCode : Nat
deriving DecidableEq, Repr

/-- `main`: argparse supplies `status` when the command argument is omitted
and `DEFAULT_HOST` when `--host` is omitted; the selected handler runs under
a try/except that prints `Error: <message>` to stderr and exits 1 on any
exception, and the process exits 0 otherwise. -/
def main (env : Env) (cmdArg : Option Command) (hostArg : Option String) :
    RunResult :=
  let command := cmdArg.getD Command.status
  let host := hostArg.getD DEFAULT_HOST
  match commands command env host with
  | (t, some msg) =>
    { calls := t.calls, stdout := t.stdout
      stderr := ["Error: " ++ msg], exitCode := 1 }
  | (t, none) =>
    { calls := t.calls, stdout := t.stdout, stderr := [], exitCode := 0 }

/-- Is this call a `connect`? -/
def Call.isConnect : Call → Bool
  | Call.connect _ => true
  | _ => false

/-- Is this call a state mutation (`turn_on` or `turn_off`)? -/
def Call.isAction : Call → Bool
  | Call.turn_on => true
  | Call.turn_off => true
  | _ => false

/-- C1: for every host and every device state observed after refresh, the
cycle command performs exactly connect(host), refresh, turn_off,
wait(CYCLE_DELAY = 3 s), turn_on, prints exactly the three lines
`Power cycling...`, `OFF - waiting 3s...`, `ON`, and exits with code 0 when
every call succeeds. -/
theorem cycle_success_trace (host a d : String) (b : Bool) :
    main ⟨a, b, d, none, none, none, none⟩ (some Command.cycle) (some host) =
      { calls := [Call.connect host, Call.refresh, Call.turn_off,
                  Call.wait CYCLE_DELAY, Call.turn_on]
        stdout := ["Power cycling...", "OFF - waiting 3s...", "ON"]
        stderr := []
        exitCode := 0 } ∧ CYCLE_DELAY = 3 :=
  ⟨rfl, rfl⟩

/-- C2: for every command, when a step raises a failure the dispatcher
writes exactly one `Error: <message>` line to standard error and exits with
code 1; when no step fails, standard error stays empty and the exit code
is 0. -/
theorem main_error_handling (env : Env) (cmdArg : Option Command)
    (hostArg : Option String) :
    (∀ msg,
      (commands (cmdArg.getD Command.status) env
          (hostArg.getD DEFAULT_HOST)).2 = some msg →
        (main env cmdArg hostArg).stderr = ["Error: " ++ msg] ∧
        (main env cmdArg hostArg).exitCode = 1) ∧
    ((commands (cmdArg.getD Command.status) env
        (hostArg.getD DEFAULT_HOST)).2 = none →
      (main env cmdArg hostArg).stderr = [] ∧
      (main env cmdArg hostArg).exitCode = 0) := by
  simp only [main]
  cases hM : commands (cmdArg.getD Command.status) env
      (hostArg.getD DEFAULT_HOST) with
  | mk t e =>
    cases e with
    | some m =>
      refine ⟨fun msg h => ?_, fun h => ?_⟩
      · obtain rfl : m = msg := by simpa using h
        exact ⟨rfl, rfl⟩
      · simp at h
    | none =>
      refine ⟨fun msg h => ?_, fun h => ?_⟩
      · simp at h
      · exact ⟨rfl, rfl⟩

/-- Witness for C2: a failing connect on `status` yields the single stderr
line and exit code 1. -/
theorem main_error_handling_witness :
    (main ⟨"plug", true, "10.0.0.9", some "unreachable", none, none, none⟩
        (some Command.status) (some "h1")).stderr =
      ["Error: " ++ "unreachable"] ∧
    (main ⟨"plug", true, "10.0.0.9", some "unreachable", none, none, none⟩
        (some Command.status) (some "h1")).exitCode = 1 :=
  (main_error_handling _ _ _).1 "unreachable" rfl

/-- C3: during cycle, if turn_off fails then turn_on is never issued, the
wait is never entered, and the process exits with code 1. -/
theorem cycle_turn_off_failure (env : Env) (host msg : String)
    (hc : env.connectErr = none) (hr : env.refreshErr = none)
    (hoff : env.turnOffErr = some msg) :
    (main env (some Command.cycle) (some host)).calls =
      [Call.connect host, Call.refresh, Call.turn_off] ∧
    Call.turn_on ∉ (main env (some Command.cycle) (some host)).calls ∧
    (∀ s, Call.wait s ∉ (main env (some Command.cycle) (some host)).calls) ∧
    (main env (some Command.cycle) (some host)).exitCode = 1 := by
  simp [main, commands, cmd_cycle, get_device, hc, hr, hoff]

/-- Witness for C3 at a concrete environment. -/
theorem cycle_turn_off_failure_witness :
    (main ⟨"plug", true, "10.0.0.9", none, none, none, some "rejected"⟩
        (some Command.cycle) (some "h1")).calls =
      [Call.connect "h1", Call.refresh, Call.turn_off] ∧
    Call.turn_on ∉ (main ⟨"plug", true, "10.0.0.9", none, none, none,
        some "rejected"⟩ (some Command.cycle) (some "h1")).calls ∧
    (∀ s, Call.wait s ∉ (main ⟨"plug", true, "10.0.0.9", none, none, none,
        some "rejected"⟩ (some Command.cycle) (some "h1")).calls) ∧
    (main ⟨"plug", true, "10.0.0.9", none, none, none, some "rejected"⟩
        (some Command.cycle) (some "h1")).exitCode = 1 :=
  cycle_turn_off_failure _ _ "rejected" rfl rfl rfl

/-- C4: when the on command observes `is_on = true` after refresh it prints
exactly `Already ON`, issues zero turn_on calls, and exits with code 0. -/
theorem on_already_on (env : Env) (host : String)
    (hc : env.connectErr = none) (hr : env.refreshErr = none)
    (hb : env.is_on = true) :
    (main env (some Command.on) (some host)).stdout = ["Already ON"] ∧
    (main env (some Command.on) (some host)).calls.count Call.turn_on = 0 ∧
    (main env (some Command.on) (some host)).exitCode = 0 := by
  simp [main, commands, cmd_on, get_device, hc, hr, hb, List.count_cons]

/-- Witness for C4 at a concrete environment. -/
theorem on_already_on_witness :
    (main ⟨"plug", true, "10.0.0.9", none, none, none, none⟩
        (some Command.on) (some "h1")).stdout = ["Already ON"] ∧
    (main ⟨"plug", true, "10.0.0.9", none, none, none, none⟩
        (some Command.on) (some "h1")).calls.count Call.turn_on = 0 ∧
    (main ⟨"plug", true, "10.0.0.9", none, none, none, none⟩
        (some Command.on) (some "h1")).exitCode = 0 :=
  on_already_on _ _ rfl rfl rfl

/-- C5: when the on command observes `is_on = false` after refresh and the
turn_on primitive succeeds, it issues exactly one turn_on call and prints
exactly `Turned ON`. -/
theorem on_turns_on (env : Env) (host : String)
    (hc : env.connectErr = none) (hr : env.refreshErr = none)
    (hb : env.is_on = false) (hok : env.turnOnErr = none) :
    (main env (some Command.on) (some host)).calls.count Call.turn_on = 1 ∧
    (main env (some Command.on) (some host)).stdout = ["Turned ON"] ∧
    (main env (some Command.on) (some host)).exitCode = 0 := by
  simp [main, commands, cmd_on, get_device, hc, hr, hb, hok, List.count_cons]

/-- Witness for C5 at a concrete environment. -/
theorem on_turns_on_witness :
    (main ⟨"plug", false, "10.0.0.9", none, none, none, none⟩
        (some Command.on) (some "h1")).calls.count Call.turn_on = 1 ∧
    (main ⟨"plug", false, "10.0.0.9", none, none, none, none⟩
        (some Command.on) (some "h1")).stdout = ["Turned ON"] ∧
    (main ⟨"plug", false, "10.0.0.9", none, none, none, none⟩
        (some Command.on) (some "h1")).exitCode = 0 :=
  on_turns_on _ _ rfl rfl rfl rfl

/-- C6: when the off command observes `is_on = false` it prints exactly
`Already OFF` and issues zero turn_off calls; when it observes
`is_on = true` (and the primitive succeeds) it issues exactly one turn_off
call and prints `Turned OFF`. -/
theorem off_behaviour (env : Env) (host : String)
    (hc : env.connectErr = none) (hr : env.refreshErr = none) :
    (env.is_on = false →
      (main env (some Command.off) (some host)).stdout = ["Already OFF"] ∧
      (main env (some Command.off) (some host)).calls.count
        Call.turn_off = 0) ∧
    (env.is_on = true → env.turnOffErr = none →
      (main env (some Command.off) (some host)).calls.count
        Call.turn_off = 1 ∧
      (main env (some Command.off) (some host)).stdout = ["Turned OFF"]) := by
  constructor
  · intro hb
    simp [main, commands, cmd_off, get_device, hc, hr, hb, List.count_cons]
  · intro hb hok
    simp [main, commands, cmd_off, get_device, hc, hr, hb, hok,
      List.count_cons]

/-- Witness for C6 at a concrete environment that is already off. -/
theorem off_behaviour_witness :
    (main ⟨"plug", false, "10.0.0.9", none, none, none, none⟩
        (some Command.off) (some "h1")).stdout = ["Already OFF"] ∧
    (main ⟨"plug", false, "10.0.0.9", none, none, none, none⟩
        (some Command.off) (some "h1")).calls.count Call.turn_off = 0 :=
  (off_behaviour _ _ rfl rfl).1 rfl

/-- C7: the status command never issues a turn_on or turn_off call, and on
success prints exactly the three lines `Device: <alias>`, `Host:   <host>`,
and `State:  ON` or `State:  OFF` according to `is_on`. -/
theorem status_frame (env : Env) (host : String) :
    ((main env (some Command.status) (some host)).calls.all
        fun k => !k.isAction) = true ∧
    (env.connectErr = none → env.refreshErr = none →
      (main env (some Command.status) (some host)).stdout =
        ["Device: " ++ env.deviceAlias, "Host:   " ++ host,
         "State:  " ++ if env.is_on then "ON" else "OFF"]) := by
  cases hc : env.connectErr <;> cases hr : env.refreshErr <;>
    simp [main, commands, cmd_status, get_device, hc, hr, Call.isAction]

/-- Witness for C7 at a concrete environment. -/
theorem status_frame_witness :
    (main ⟨"plug", true, "10.0.0.9", none, none, none, none⟩
        (some Command.status) (some "h1")).stdout =
      ["Device: " ++ "plug", "Host:   " ++ "h1",
       "State:  " ++ if (true : Bool) then "ON" else "OFF"] :=
  (status_frame ⟨"plug", true, "10.0.0.9", none, none, none, none⟩
    "h1").2 rfl rfl

/-- C8: every command issues exactly one connect call; whenever connect
succeeds, its trace begins with connect(host) immediately followed by
refresh — before the is_on flag is read or any action is issued — and
refresh is issued exactly once; and any state-mutating action implies both
connect and refresh succeeded, so no command creates a second handle or
acts on an unrefreshed handle. -/
theorem one_handle_refresh_before_action (env : Env) (c : Command)
    (host : String) :
    ((main env (some c) (some host)).calls.countP
        fun k => k.isConnect) = 1 ∧
    (env.connectErr = none →
      (main env (some c) (some host)).calls.take 2 =
        [Call.connect host, Call.refresh] ∧
      (main env (some c) (some host)).calls.count Call.refresh = 1) ∧
    (∀ k ∈ (main env (some c) (some host)).calls, k.isAction = true →
      env.connectErr = none ∧ env.refreshErr = none) := by
  cases c <;> cases hc : env.connectErr <;> cases hr : env.refreshErr <;>
    cases hb : env.is_on <;> cases hn : env.turnOnErr <;>
    cases hf : env.turnOffErr <;>
    simp [main, commands, cmd_status, cmd_on, cmd_off, cmd_cycle, get_device,
      hc, hr, hb, hn, hf, Call.isConnect, Call.isAction, List.countP_cons,
      List.count_cons]

/-- Witness for C8 at a concrete environment and command: one connect, and
the trace starts with connect then refresh. -/
theorem one_handle_refresh_before_action_witness :
    ((main ⟨"plug", false, "10.0.0.9", none, none, none, none⟩
        (some Command.on) (some "h1")).calls.countP
      fun k => k.isConnect) = 1 ∧
    (main ⟨"plug", false, "10.0.0.9", none, none, none, none⟩
        (some Command.on) (some "h1")).calls.take 2 =
      [Call.connect "h1", Call.refresh] :=
  ⟨(one_handle_refresh_before_action _ _ _).1,
   ((one_handle_refresh_before_action
      ⟨"plug", false, "10.0.0.9", none, none, none, none⟩
      Command.on "h1").2.1 rfl).1⟩

/-- Helper: the first library call of any invocation with an explicit host
is connect with exactly that host string. -/
theorem main_calls_head (env : Env) (cmdArg : Option Command)
    (host : String) :
    (main env cmdArg (some host)).calls.head? =
      some (Call.connect host) := by
  have hcmd : ∀ c : Command,
      (main env (some c) (some host)).calls.head? =
        some (Call.connect host) := by
    intro c
    cases c <;> cases hc : env.connectErr <;> cases hr : env.refreshErr <;>
      cases hb : env.is_on <;> cases hn : env.turnOnErr <;>
      cases hf : env.turnOffErr <;>
      simp [main, commands, cmd_status, cmd_on, cmd_off, cmd_cycle,
        get_device, hc, hr, hb, hn, hf]
  rcases cmdArg with _ | c
  · exact hcmd Command.status
  · exact hcmd c

/-- C9: with `--host` omitted, connect receives the fixed default host
`192.168.4.96`; with `--host` given, that exact string reaches connect; with
the command omitted, the status command runs. -/
theorem argparse_defaults (env : Env) (cmdArg : Option Command)
    (host : String) :
    (main env cmdArg none).calls.head? =
      some (Call.connect DEFAULT_HOST) ∧
    DEFAULT_HOST = "192.168.4.96" ∧
    (main env cmdArg (some host)).calls.head? =
      some (Call.connect host) ∧
    main env none (some host) =
      main env (some Command.status) (some host) :=
  ⟨main_calls_head env cmdArg DEFAULT_HOST, rfl,
   main_calls_head env cmdArg host, rfl⟩

/-- C10: the `Host:` line of status echoes the host argument, independent of
the address the device itself reports: two environments agreeing on
everything status reads, but free to differ in `reportedHost`, produce
identical stdout, and on success the second stdout line is
`Host:   <host>`. -/
theorem status_host_line_noninterference (env1 env2 : Env) (host : String)
    (ha : env1.deviceAlias = env2.deviceAlias)
    (hb : env1.is_on = env2.is_on)
    (hc : env1.connectErr = env2.connectErr)
    (hr : env1.refreshErr = env2.refreshErr) :
    (main env1 (some Command.status) (some host)).stdout =
      (main env2 (some Command.status) (some host)).stdout ∧
    (env1.connectErr = none → env1.refreshErr = none →
      (main env1 (some Command.status) (some host)).stdout[1]? =
        some ("Host:   " ++ host)) := by
  constructor
  · cases h1 : env1.connectErr <;> cases h2 : env1.refreshErr <;>
      simp [main, commands, cmd_status, get_device, h1, h2,
        hc.symm.trans h1, hr.symm.trans h2, ha, hb]
  · intro h1 h2
    simp [main, commands, cmd_status, get_device, h1, h2]

/-- Witness for C10: two devices reporting different addresses, reached via
the same host argument, print identical output. -/
theorem status_host_line_noninterference_witness :
    (main ⟨"plug", true, "10.0.0.7", none, none, none, none⟩
        (some Command.status) (some "h1")).stdout =
      (main ⟨"plug", true, "10.0.0.8", none, none, none, none⟩
        (some Command.status) (some "h1")).stdout :=
  (status_host_line_noninterference _ _ _ rfl rfl rfl rfl).1

end STM32Power
